import Mathlib

/-!
Shallow embedding of the session-guarded narrative orchestration core of
"Echoes of the Void" (a Zustand game store driving an AI text adventure),
together with its structured-response validator (zod schema) and the
typewriter animation controller.

Sources embedded:
* the game store (`useGameStore`: `addNarrativeEntry`, `applyStateUpdate`,
  `initializeGame`, `submitCommand`, `resetGame`, `setTheme`),
* `src/lib/schema.ts` (`StructuredResponseSchema` and the cue enums,
  modelled at the JSON level),
* the typewriter controller (`createTypewriter`),
* `src/lib/prompts.ts` (`THEME_CONFIG`) and the ASCII art lookup.

Modelling conventions:
* JavaScript strings are Lean `String`s (typewriter text is `List Char`,
  one element per revealed character).
* Machine JS numbers at the store level are `Int`: every claim about the
  store quantifies over integer deltas, on which JS double arithmetic and
  `Math.max`/`Math.min` are exact.  At the validator boundary, where
  NaN/infinities/non-integers matter, numbers are modelled explicitly by
  `JsNum` (finite rational, infinities, NaN).
* `NarrativeEntry.id`/`timestamp` are generated from the wall clock and
  `Math.random`; they are opaque fresh values that no claim observes, so
  entries are modelled by their `type` and `content`.
* Asynchronous operations are split at their single suspension point (the
  generator round-trip): the synchronous pre-phase is one function, and the
  resolution (the continuation run when the round-trip settles) is another,
  parameterised by the generator result and, where the source reads it, by
  the captured and current values of the module-level session counter.
-/

/-- The `type` field of a narrative log entry. -/
inductive EntryType where
  | player
  | narrator
  | ascii
  | system
  deriving DecidableEq, Repr

/-- One entry of the narrative log (`NarrativeEntry` without the opaque
generated `id`/`timestamp`, which no embedded operation reads). -/
structure NarrativeEntry where
  etype : EntryType
  content : String
  deriving DecidableEq, Repr

/-- Role of a conversation turn. -/
inductive Role where
  | user
  | assistant
  deriving DecidableEq, Repr

/-- One turn of the AI-facing conversation history. -/
structure ConversationTurn where
  role : Role
  content : String
  deriving DecidableEq, Repr

/-- Theme keys from `src/lib/prompts.ts`. -/
inductive ThemeKey where
  | horror
  | scifi
  | fantasy
  deriving DecidableEq, Repr

/-- Text speed preference (user preference, orthogonal to game progress). -/
inductive TextSpeed where
  | slow
  | normal
  | fast
  deriving DecidableEq, Repr

/-- The visual cue enumeration (`VisualCueEnum` in `src/lib/schema.ts`). -/
inductive VisualCue where
  | none
  | skeleton
  | door
  | chest
  | monster
  | void
  deriving DecidableEq, Repr

/-- The sound cue enumeration (`SoundCueEnum` in `src/lib/schema.ts`). -/
inductive SoundCue where
  | none
  | wind
  | scream
  | drip
  | combat
  deriving DecidableEq, Repr

/-- The store-level `GameStateUpdate` (validated generator delta).  JS
numbers are `Int` here: all store claims quantify over integer deltas. -/
structure GameStateUpdate where
  health_change : Option Int
  inventory_add : Option String
  inventory_remove : Option String
  deriving DecidableEq, Repr

/-- The validated `StructuredResponse` consumed by the store. -/
structure StructuredResponse where
  narrative : String
  visual_cue : VisualCue
  game_state_update : GameStateUpdate
  sound_cue : SoundCue
  deriving DecidableEq, Repr

/-- JS truthiness of an optional string field: `undefined` and the empty
string are falsy, every other string truthy. -/
def optTruthy : Option String → Bool
  | Option.none => false
  | Option.some s => !(s == "")

/-- The string of an optional field, defaulting to the empty string. -/
def optStr (o : Option String) : String := o.getD ""

/-- JS `toUpperCase`, modelled characterwise on the string's character
list (kernel-computable, unlike `String.toUpper`). -/
def jsToUpperCase (s : String) : String := ⟨s.data.map Char.toUpper⟩

/-- JS `toLowerCase`, modelled characterwise on the string's character
list. -/
def jsToLowerCase (s : String) : String := ⟨s.data.map Char.toLower⟩

/-- JS `trim`: drop whitespace from both ends of the character list. -/
def jsTrim (s : String) : String :=
  ⟨((s.data.dropWhile Char.isWhitespace).reverse.dropWhile Char.isWhitespace).reverse⟩

/-- The Zustand store state (`GameState` fields owned by `useGameStore`). -/
structure Store where
  health : Int
  inventory : List String
  isGameOver : Bool
  history : List ConversationTurn
  isProcessing : Bool
  isTyping : Bool
  narrativeEntries : List NarrativeEntry
  isMuted : Bool
  currentTheme : ThemeKey
  textSpeed : TextSpeed
  deriving DecidableEq, Repr

/-- `INITIAL_STATE` of the store. -/
def INITIAL_STATE : Store :=
  { health := 100
    inventory := []
    isGameOver := false
    history := []
    isProcessing := false
    isTyping := false
    narrativeEntries := []
    isMuted := false
    currentTheme := ThemeKey.horror
    textSpeed := TextSpeed.normal }

/-- `addNarrativeEntry`: appends the entry and sets `isTyping` to whether
the entry type is `narrator` or `ascii`. -/
def addNarrativeEntry (s : Store) (etype : EntryType) (content : String) : Store :=
  { s with
    narrativeEntries := s.narrativeEntries ++ [⟨etype, content⟩]
    isTyping := etype == EntryType.narrator || etype == EntryType.ascii }

/-- `applyStateUpdate`: clamps health into `[0,100]`, adds the item if
truthy and not already present, removes all occurrences of a truthy removed
item, derives `isGameOver`, then appends the ACQUIRED/USED system
notifications through `addNarrativeEntry`. -/
def applyStateUpdate (s : Store) (update : GameStateUpdate) : Store :=
  let itemAdded := update.inventory_add
  let itemRemoved := update.inventory_remove
  let newHealth : Int :=
    match update.health_change with
    | Option.none => s.health
    | Option.some c => max 0 (min 100 (s.health + c))
  let inv1 :=
    if optTruthy itemAdded && !(s.inventory.contains (optStr itemAdded)) then
      s.inventory ++ [optStr itemAdded]
    else s.inventory
  let inv2 :=
    if optTruthy itemRemoved then
      inv1.filter (fun item => item != optStr itemRemoved)
    else inv1
  let s1 : Store :=
    { s with
      health := newHealth
      inventory := inv2
      isGameOver := decide (newHealth ≤ 0) }
  let s2 :=
    if optTruthy itemAdded then
      addNarrativeEntry s1 EntryType.system ("► ACQUIRED: " ++ jsToUpperCase (optStr itemAdded))
    else s1
  if optTruthy itemRemoved then
    addNarrativeEntry s2 EntryType.system ("► USED: " ++ jsToUpperCase (optStr itemRemoved))
  else s2

/-- A theme entry of `THEME_CONFIG` in `src/lib/prompts.ts`. -/
structure ThemeConfigEntry where
  displayName : String
  openingLine : String
  helpMessage : String
  deriving DecidableEq, Repr

/-- `THEME_CONFIG`: per-theme display name, opening line and help text. -/
def THEME_CONFIG : ThemeKey → ThemeConfigEntry
  | ThemeKey.horror =>
    { displayName := "PROTOCOL: HORROR"
      openingLine := "The player has just awakened in The Void. Generate the opening scene that establishes: 1. The player waking in darkness 2. A sense of disorientation and dread 3. A hint of something watching 4. One possible direction or action to take. This is the START_GAME trigger. Set the tone for the entire experience."
      helpMessage := "COMMAND LIST:\n- look: Inspect your surroundings\n- check inventory: See what you are carrying\n- take [item]: Pick up an object\n- use [item]: Use an item\n- north/south/east/west: Move directions\n\n*SURVIVAL TIP: The Void drains your sanity. Stay alert.*" }
  | ThemeKey.scifi =>
    { displayName := "PROTOCOL: SCI-FI"
      openingLine := "The player has just regained consciousness on Station Erebus. Generate the opening scene that establishes: 1. The player waking in a damaged cryo-pod 2. Emergency lights flickering, alarms distant 3. A sense that something is very wrong 4. One possible direction or action to take. This is the START_GAME trigger. Set the tone for the entire experience."
      helpMessage := "COMMAND LIST:\n- scan: Analyze your surroundings\n- check inventory: Review equipment\n- take [item]: Acquire equipment\n- use [item]: Activate equipment\n- north/south/east/west: Navigate station\n\n*SURVIVAL TIP: Monitor oxygen levels. Conserve resources.*" }
  | ThemeKey.fantasy =>
    { displayName := "PROTOCOL: FANTASY"
      openingLine := "The player has just descended into The Abyssal Depths. Generate the opening scene that establishes: 1. The player at the entrance of an ancient dungeon 2. Torchlight revealing carved stone walls 3. A sense of ancient danger and hidden treasure 4. One possible direction or action to take. This is the START_GAME trigger. Set the tone for the entire experience."
      helpMessage := "COMMAND LIST:\n- look: Survey the chamber\n- check inventory: Examine your pack\n- take [item]: Claim treasure\n- use [item]: Wield an item\n- north/south/east/west: Explore passages\n\n*SURVIVAL TIP: Guard your vitality. Danger lurks in shadow.*" }

/-- `ASCII_ART` from `src/lib/ascii.ts` (backslashes unescaped; backtick and
apostrophe characters written as hexadecimal escapes). -/
def ASCII_ART : VisualCue → String
  | VisualCue.none => ""
  | VisualCue.skeleton => "\n    .---.\n   /     \\\n   \\.@-@./\n    /\x60\\_/\x60\\\n   //  _  \\\\\n  | \\     / |\n   \\|  |  |/\n    |  |  |\n   /___|___\\\n  "
  | VisualCue.door => "\n   ______________\n  |\\             \\\n  | \\             \\\n  |  \\-------------\\\n  |   |            |\n  |   |    .-.     |\n  |   |    | |     |\n  |   |    \x27-\x27     |\n   \\  |            |\n    \\ |            |\n     \\|____________|\n  "
  | VisualCue.chest => "\n      ____\n     /    \\\n    /______\\\n   |  ____  |\n   | |    | |\n   | |____| |\n   |________|\n  "
  | VisualCue.monster => "\n      ,     ,\n     /(     )\\\n    /  \\   /  \\\n   /    ) (    \\\n  /   .\x27 _ \x27.   \\\n /   /   ^   \\   \\\n(   (  (o o)  )   )\n \\   \\  \\_/  /   /\n  \x27._/       \\_.\x27\n  "
  | VisualCue.void => "\n    . . .  .  . . .\n   .  *  .   .  *  .\n  . .   . . . .   . .\n    .  .  ___  .  .\n   . . . |   | . . .\n  .  *  .|   |.  *  .\n   . . . |___|. . .\n    .  .  . .  .  .\n   .  *  .   .  *  .\n    . . .  .  . . .\n  "

/-- `getASCIIArt`: `ASCII_ART[cue] || an empty string`. -/
def getASCIIArt (cue : VisualCue) : String := ASCII_ART cue

/-- Error classification of `GenerateNarrativeOutput.errorType`. -/
inductive ErrorType where
  | network
  | validation
  | rate_limit
  | auth
  | unknown
  deriving DecidableEq, Repr

/-- `GenerateNarrativeOutput`, the settled value of a `generateNarrative`
round-trip (`success` plus optional `data`, `error`, `errorType`). -/
structure GenerateNarrativeOutput where
  success : Bool
  data : Option StructuredResponse
  error : Option String
  errorType : Option ErrorType
  deriving DecidableEq, Repr

/-- How a `generateNarrative` round-trip settles at the caller: the promise
resolves with an output, or it rejects (the `catch` path in the store). -/
inductive GenResult where
  | resolved (out : GenerateNarrativeOutput)
  | thrown
  deriving DecidableEq, Repr

/-- The shared success block of `initializeGame`/`submitCommand`: apply the
state delta, append the narrator entry, append an art entry when the visual
cue is not `none` and its art string is truthy, and append the
user/assistant turn pair to history.  (`SoundManager.play` is external and
mutates no store field.)  `userContent` is the user turn content:
`__START_GAME__` for initialization, the raw command for submission. -/
def applySuccess (userContent : String) (data : StructuredResponse) (s : Store) : Store :=
  let s1 := applyStateUpdate s data.game_state_update
  let s2 := addNarrativeEntry s1 EntryType.narrator data.narrative
  let s3 :=
    if data.visual_cue != VisualCue.none then
      let art := getASCIIArt data.visual_cue
      if art != "" then addNarrativeEntry s2 EntryType.ascii art else s2
    else s2
  { s3 with
    history := s3.history ++
      [⟨Role.user, userContent⟩, ⟨Role.assistant, data.narrative⟩] }

/-- The classified error message of `submitCommand`: dispatch on
`errorType`, falling back to `THE VOID TREMBLES` with the (truthy) error
string or `Unknown disturbance`. -/
def submitErrorMessage (out : GenerateNarrativeOutput) : String :=
  match out.errorType with
  | Option.some ErrorType.rate_limit => "THE VOID IS OVERWHELMED. Wait a moment and try again."
  | Option.some ErrorType.auth => "AUTHENTICATION FAILED. The void rejects your presence."
  | Option.some ErrorType.network => "CONNECTION TO THE VOID LOST. Check your connection and try again."
  | _ =>
    "THE VOID TREMBLES: " ++ (if optTruthy out.error then optStr out.error else "Unknown disturbance")

/-- The error message of `initializeGame`'s failure branch:
`CONNECTION TO THE VOID LOST` with the (truthy) error string or
`Unknown error`. -/
def initErrorMessage (out : GenerateNarrativeOutput) : String :=
  "CONNECTION TO THE VOID LOST: " ++ (if optTruthy out.error then optStr out.error else "Unknown error")

/-- Resolution (post-await continuation) of a `submitCommand` round-trip.
The source performs NO session-token comparison on this path: the success
block applies unconditionally, the failure branches append their classified
system entry, and the `finally` block clears `isProcessing`
unconditionally. -/
def submitCommandResolve (command : String) (result : GenResult) (s : Store) : Store :=
  let s1 :=
    match result with
    | GenResult.resolved out =>
      match out.success, out.data with
      | true, Option.some d => applySuccess command d s
      | _, _ => addNarrativeEntry s EntryType.system (submitErrorMessage out)
    | GenResult.thrown =>
      addNarrativeEntry s EntryType.system "CONNECTION TO THE VOID LOST. Try again."
  { s1 with isProcessing := false }

/-- Resolution (post-await continuation) of an `initializeGame` round-trip.
`capturedSession` is the value of the module-level `initializationSession`
captured before the await; `currentSession` its value at resumption.  On a
mismatch every path returns before mutating, and the `finally` block skips
clearing `isProcessing`; on a match the success/failure handling runs and
`finally` clears `isProcessing`. -/
def initializeGameResolve (capturedSession currentSession : Nat)
    (result : GenResult) (s : Store) : Store :=
  match result with
  | GenResult.resolved out =>
    if capturedSession != currentSession then s
    else
      let s1 :=
        match out.success, out.data with
        | true, Option.some d => applySuccess "__START_GAME__" d s
        | _, _ => addNarrativeEntry s EntryType.system (initErrorMessage out)
      { s1 with isProcessing := false }
  | GenResult.thrown =>
    if capturedSession != currentSession then s
    else
      { addNarrativeEntry s EntryType.system
          "CONNECTION TO THE VOID LOST. Please refresh to try again." with
        isProcessing := false }

/-- Outcome of the synchronous (pre-await) phase of `submitCommand`. -/
inductive SubmitLocal where
  | rejected
  | handledLocally (s : Store)
  | dispatched (s : Store)
  deriving DecidableEq, Repr

/-- The synchronous phase of `submitCommand`: the processing/game-over
guard, the immediate player entry, the local help/instructions dispatch on
the trimmed lower-cased command, and otherwise setting `isProcessing`
before the generator round-trip starts (`dispatched` is the state in which
the round-trip is issued; only this outcome invokes the generator). -/
def submitCommandLocal (command : String) (s : Store) : SubmitLocal :=
  if s.isProcessing || s.isGameOver then SubmitLocal.rejected
  else
    let s1 := addNarrativeEntry s EntryType.player command
    let normalizedCommand := jsToLowerCase (jsTrim command)
    if normalizedCommand == "help" || normalizedCommand == "instructions" then
      SubmitLocal.handledLocally
        (addNarrativeEntry s1 EntryType.system (THEME_CONFIG s.currentTheme).helpMessage)
    else
      SubmitLocal.dispatched { s1 with isProcessing := true }

/-- The mutable closure state of a `createTypewriter` controller, plus
instrumentation recording the texts passed to `onUpdate` and the number of
`onComplete` invocations.  The text is a `List Char`; `timerPending` models
whether a `setTimeout` tick is scheduled and uncancelled. -/
structure TWState where
  currentIndex : Nat
  timerPending : Bool
  running : Bool
  paused : Bool
  complete : Bool
  emitted : List (List Char)
  completeCount : Nat
  deriving DecidableEq, Repr

/-- The closure state at controller creation. -/
def twInit : TWState :=
  { currentIndex := 0
    timerPending := false
    running := false
    paused := false
    complete := false
    emitted := []
    completeCount := 0 }

/-- The `tick` closure over text `t`: bail out unless running and not
paused; emit the prefix revealed so far and advance; either schedule the
next tick or transition to complete and fire `onComplete`. -/
def twTick (t : List Char) (s : TWState) : TWState :=
  if !s.running || s.paused then s
  else if s.currentIndex ≤ t.length then
    let s1 :=
      { s with
        emitted := s.emitted ++ [t.take s.currentIndex]
        currentIndex := s.currentIndex + 1 }
    if s1.currentIndex ≤ t.length then { s1 with timerPending := true }
    else
      { s1 with
        complete := true
        running := false
        completeCount := s1.completeCount + 1 }
  else s

/-- The externally triggerable events of a controller: the five methods
plus the firing of a scheduled tick timer (`timer` is a no-op when no
uncancelled timer is pending). -/
inductive TWEvent where
  | start
  | skip
  | pause
  | resume
  | stop
  | timer
  deriving DecidableEq, Repr

/-- One event step of the controller over text `t`, following the bodies
of `start`/`skip`/`pause`/`resume`/`stop` and the timer callback. -/
def twStep (t : List Char) (s : TWState) : TWEvent → TWState
  | TWEvent.start =>
    if s.running || s.complete then s
    else twTick t { s with running := true, paused := false }
  | TWEvent.skip =>
    if s.complete then s
    else
      { s with
        timerPending := false
        currentIndex := t.length
        emitted := s.emitted ++ [t]
        complete := true
        running := false
        completeCount := s.completeCount + 1 }
  | TWEvent.pause =>
    if !s.running || s.complete then s
    else { s with paused := true, timerPending := false }
  | TWEvent.resume =>
    if !s.paused || s.complete then s
    else twTick t { s with paused := false }
  | TWEvent.stop =>
    { s with
      timerPending := false
      running := false
      paused := false
      currentIndex := 0
      complete := false }
  | TWEvent.timer =>
    if s.timerPending then twTick t { s with timerPending := false } else s

/-- A run of a freshly created controller over a sequence of events. -/
def twRun (t : List Char) (es : List TWEvent) : TWState :=
  es.foldl (twStep t) twInit

/-- `getCurrentText` of the controller. -/
def twCurrentText (t : List Char) (s : TWState) : List Char := t.take s.currentIndex

/-- JavaScript numbers as zod sees them: NaN, the two infinities, or a
finite value (IEEE doubles are a subset of the rationals). -/
inductive JsNum where
  | nan
  | posInf
  | negInf
  | finite (q : ℚ)
  deriving DecidableEq, Repr

/-- Untrusted JSON-ish runtime values arriving at the validator.  `undef`
is the JavaScript `undefined`, which is also what a missing object key
reads as. -/
inductive Json where
  | str (s : String)
  | num (n : JsNum)
  | boolean (b : Bool)
  | null
  | undef
  | obj (fields : List (String × Json))
  | arr (elems : List Json)

/-- Reading a key of a JS object: the first binding, or `undefined` when
the key is missing. -/
def getField : List (String × Json) → String → Json
  | [], _ => Json.undef
  | (k, v) :: rest, key => if k == key then v else getField rest key

/-- `z.string()`: succeeds exactly on strings (any string, empty
included). -/
def parseString : Json → Option String
  | Json.str s => Option.some s
  | _ => Option.none

/-- `z.string().optional()`: missing/`undefined` is accepted as absent. -/
def parseOptionalString : Json → Option (Option String)
  | Json.undef => Option.some Option.none
  | Json.str s => Option.some (Option.some s)
  | _ => Option.none

/-- `z.number().optional()`: missing/`undefined` is absent; a number is
accepted unless it is NaN (zod types NaN apart from numbers); infinities
and non-integers pass. -/
def parseOptionalNumber : Json → Option (Option JsNum)
  | Json.undef => Option.some Option.none
  | Json.num n => if n == JsNum.nan then Option.none else Option.some (Option.some n)
  | _ => Option.none

/-- The members of `VisualCueEnum`. -/
def visualCueValues : List String := ["none", "skeleton", "door", "chest", "monster", "void"]

/-- The members of `SoundCueEnum`. -/
def soundCueValues : List String := ["none", "wind", "scream", "drip", "combat"]

/-- `z.enum(values)`: succeeds exactly on strings that are members of the
closed enumeration. -/
def parseEnum (values : List String) : Json → Option String
  | Json.str s => if values.contains s then Option.some s else Option.none
  | _ => Option.none

/-- The validated `game_state_update` at the schema boundary, with JS
numbers kept as `JsNum`. -/
structure SchemaGameStateUpdate where
  health_change : Option JsNum
  inventory_add : Option String
  inventory_remove : Option String
  deriving DecidableEq, Repr

/-- The validated structured response at the schema boundary.  The cue
fields are the enum member strings accepted by `parseEnum`. -/
structure SchemaStructuredResponse where
  narrative : String
  visual_cue : String
  game_state_update : SchemaGameStateUpdate
  sound_cue : String
  deriving DecidableEq, Repr

/-- `GameStateUpdateSchema.safeParse`: the input must be an object; each
declared optional field must parse; unknown keys are stripped. -/
def parseGameStateUpdate : Json → Option SchemaGameStateUpdate
  | Json.obj fields => do
    let hc ← parseOptionalNumber (getField fields "health_change")
    let ia ← parseOptionalString (getField fields "inventory_add")
    let ir ← parseOptionalString (getField fields "inventory_remove")
    Option.some ⟨hc, ia, ir⟩
  | _ => Option.none

/-- `StructuredResponseSchema.safeParse`: the input must be an object;
`narrative` must be a string, the cue fields members of their closed
enumerations, and `game_state_update` a valid delta object.  Success
returns the parsed data, failure `Option.none` (zod reports a typed
validation error, never a thrown fault). -/
def parseStructuredResponse : Json → Option SchemaStructuredResponse
  | Json.obj fields => do
    let n ← parseString (getField fields "narrative")
    let vc ← parseEnum visualCueValues (getField fields "visual_cue")
    let gsu ← parseGameStateUpdate (getField fields "game_state_update")
    let sc ← parseEnum soundCueValues (getField fields "sound_cue")
    Option.some ⟨n, vc, gsu, sc⟩
  | _ => Option.none

/-- Spec-side (refinement) predicate: a JSON value is a string. -/
def isStrB : Json → Bool
  | Json.str _ => true
  | _ => false

/-- Spec-side (refinement) predicate: an optional string field — absent or
any string (empty included). -/
def isOptStrB : Json → Bool
  | Json.undef => true
  | Json.str _ => true
  | _ => false

/-- Spec-side (refinement) predicate: an optional number field — absent or
any number other than NaN (infinities and non-integers included). -/
def isOptNumB : Json → Bool
  | Json.undef => true
  | Json.num n => !(n == JsNum.nan)
  | _ => false

/-- Spec-side (refinement) predicate: a JSON value is a member string of a
closed enumeration. -/
def isEnumB (values : List String) : Json → Bool
  | Json.str s => values.contains s
  | _ => false

/-- Spec-side (refinement) characterisation of the structural validity the
validator actually enforces on `game_state_update`: an object whose three
declared fields, when present, are of the declared JS types. -/
def specValidGameStateUpdate : Json → Bool
  | Json.obj fields =>
    isOptNumB (getField fields "health_change") &&
    isOptStrB (getField fields "inventory_add") &&
    isOptStrB (getField fields "inventory_remove")
  | _ => false

/-- Spec-side (refinement) characterisation of the structural validity the
validator actually enforces on a structured response: an object whose
`narrative` is a string (possibly empty), whose cue fields are members of
their closed enumerations, and whose `game_state_update` is a valid delta
object. -/
def specValidStructuredResponse : Json → Bool
  | Json.obj fields =>
    isStrB (getField fields "narrative") &&
    isEnumB visualCueValues (getField fields "visual_cue") &&
    specValidGameStateUpdate (getField fields "game_state_update") &&
    isEnumB soundCueValues (getField fields "sound_cue")
  | _ => false

/-!
## Theorems

Helper projection lemmas first, then one theorem per claim (with witnesses
and counterexamples where required).
-/

theorem addNarrativeEntry_health (s : Store) (t : EntryType) (c : String) :
    (addNarrativeEntry s t c).health = s.health := rfl

theorem addNarrativeEntry_inventory (s : Store) (t : EntryType) (c : String) :
    (addNarrativeEntry s t c).inventory = s.inventory := rfl

theorem addNarrativeEntry_isGameOver (s : Store) (t : EntryType) (c : String) :
    (addNarrativeEntry s t c).isGameOver = s.isGameOver := rfl

theorem addNarrativeEntry_history (s : Store) (t : EntryType) (c : String) :
    (addNarrativeEntry s t c).history = s.history := rfl

theorem addNarrativeEntry_isProcessing (s : Store) (t : EntryType) (c : String) :
    (addNarrativeEntry s t c).isProcessing = s.isProcessing := rfl

theorem addNarrativeEntry_narrativeEntries (s : Store) (t : EntryType) (c : String) :
    (addNarrativeEntry s t c).narrativeEntries = s.narrativeEntries ++ [⟨t, c⟩] := rfl

theorem applyStateUpdate_health (s : Store) (u : GameStateUpdate) :
    (applyStateUpdate s u).health =
      match u.health_change with
      | Option.none => s.health
      | Option.some c => max 0 (min 100 (s.health + c)) := by
  simp only [applyStateUpdate]
  split_ifs <;> rfl

theorem applyStateUpdate_isGameOver (s : Store) (u : GameStateUpdate) :
    (applyStateUpdate s u).isGameOver = decide ((applyStateUpdate s u).health ≤ 0) := by
  simp only [applyStateUpdate]
  split_ifs <;> rfl

theorem applyStateUpdate_history (s : Store) (u : GameStateUpdate) :
    (applyStateUpdate s u).history = s.history := by
  simp only [applyStateUpdate]
  split_ifs <;> rfl

theorem applyStateUpdate_isProcessing (s : Store) (u : GameStateUpdate) :
    (applyStateUpdate s u).isProcessing = s.isProcessing := by
  simp only [applyStateUpdate]
  split_ifs <;> rfl

theorem applyStateUpdate_narrativeEntries (s : Store) (u : GameStateUpdate) :
    (applyStateUpdate s u).narrativeEntries =
      s.narrativeEntries ++
        (if optTruthy u.inventory_add then
          [⟨EntryType.system, "► ACQUIRED: " ++ jsToUpperCase (optStr u.inventory_add)⟩]
        else []) ++
        (if optTruthy u.inventory_remove then
          [⟨EntryType.system, "► USED: " ++ jsToUpperCase (optStr u.inventory_remove)⟩]
        else []) := by
  simp only [applyStateUpdate]
  split_ifs <;> simp [addNarrativeEntry]

theorem applyStateUpdate_add_inventory (s : Store) (item : String) :
    (applyStateUpdate s ⟨Option.none, Option.some item, Option.none⟩).inventory =
      if !(item == "") && !(s.inventory.contains item) then s.inventory ++ [item]
      else s.inventory := by
  simp only [applyStateUpdate, optTruthy, optStr, Option.getD]
  split_ifs <;> simp_all [addNarrativeEntry]

theorem applyStateUpdate_remove_inventory (s : Store) (item : String) :
    (applyStateUpdate s ⟨Option.none, Option.none, Option.some item⟩).inventory =
      if !(item == "") then s.inventory.filter (fun x => x != item) else s.inventory := by
  simp only [applyStateUpdate, optTruthy, optStr, Option.getD]
  split_ifs <;> simp_all [addNarrativeEntry]

/-- C5: for every starting health in `[0,100]` and every integer
`health_change`, `applyStateUpdate` yields
`health = max 0 (min 100 (health + change))`; with the field absent the
health is unchanged. -/
theorem C5_health_clamp (s : Store) (c : Int) (add rem : Option String)
    (h1 : 0 ≤ s.health) (h2 : s.health ≤ 100) :
    (applyStateUpdate s ⟨Option.some c, add, rem⟩).health = max 0 (min 100 (s.health + c)) ∧
    (applyStateUpdate s ⟨Option.none, add, rem⟩).health = s.health := by
  refine ⟨?_, ?_⟩ <;> simp [applyStateUpdate_health]

/-- Witness for C5 at `INITIAL_STATE` (health 100) and change `-15`. -/
theorem C5_health_clamp_witness :
    0 ≤ INITIAL_STATE.health ∧ INITIAL_STATE.health ≤ 100 ∧
    ((applyStateUpdate INITIAL_STATE ⟨Option.some (-15), Option.none, Option.none⟩).health
        = max 0 (min 100 (INITIAL_STATE.health + (-15))) ∧
      (applyStateUpdate INITIAL_STATE ⟨Option.none, Option.none, Option.none⟩).health
        = INITIAL_STATE.health) :=
  ⟨by decide, by decide,
    C5_health_clamp INITIAL_STATE (-15) Option.none Option.none (by decide) (by decide)⟩

/-- C6: after every application of `applyStateUpdate`, `isGameOver` is true
exactly when the new health is at most zero (unconditionally, hence in
particular from any state satisfying the invariant). -/
theorem C6_isGameOver_iff_health_nonpos (s : Store) (u : GameStateUpdate) :
    (applyStateUpdate s u).isGameOver = true ↔ (applyStateUpdate s u).health ≤ 0 := by
  simp [applyStateUpdate_isGameOver]

/-- C7: adding an item twice in succession yields the same inventory as
adding it once (duplicate add is a no-op, order preserved by the append),
and removing an item absent from the inventory leaves it unchanged. -/
theorem C7_add_idempotent_remove_absent_noop (s : Store) (item : String) :
    (applyStateUpdate (applyStateUpdate s ⟨Option.none, Option.some item, Option.none⟩)
        ⟨Option.none, Option.some item, Option.none⟩).inventory =
      (applyStateUpdate s ⟨Option.none, Option.some item, Option.none⟩).inventory ∧
    (item ∉ s.inventory →
      (applyStateUpdate s ⟨Option.none, Option.none, Option.some item⟩).inventory
        = s.inventory) := by
  constructor
  · rw [applyStateUpdate_add_inventory,
      applyStateUpdate_add_inventory s item]
    by_cases hcond : (!(item == "") && !(s.inventory.contains item)) = true
    · rw [if_pos hcond, if_neg]
      simp_all
    · rw [if_neg hcond, if_neg hcond]
  · intro hmem
    rw [applyStateUpdate_remove_inventory]
    split_ifs with h
    · apply List.filter_eq_self.mpr
      intro a ha
      simp only [bne_iff_ne, ne_eq]
      exact fun he => hmem (he ▸ ha)
    · rfl

/-- Witness for C7 at the empty inventory and the item `torch`. -/
theorem C7_add_idempotent_remove_absent_noop_witness :
    ((applyStateUpdate (applyStateUpdate INITIAL_STATE
          ⟨Option.none, Option.some "torch", Option.none⟩)
        ⟨Option.none, Option.some "torch", Option.none⟩).inventory =
      (applyStateUpdate INITIAL_STATE
          ⟨Option.none, Option.some "torch", Option.none⟩).inventory ∧
    ("torch" ∉ INITIAL_STATE.inventory →
      (applyStateUpdate INITIAL_STATE
          ⟨Option.none, Option.none, Option.some "torch"⟩).inventory
        = INITIAL_STATE.inventory)) ∧
    "torch" ∉ INITIAL_STATE.inventory :=
  ⟨C7_add_idempotent_remove_absent_noop INITIAL_STATE "torch", by decide⟩

/-- C10: `addNarrativeEntry` sets `isTyping` to whether the entry type is
`narrator` or `ascii`; consequently appending a `player` or `system` entry
forces `isTyping` to `false` regardless of the prior flag. -/
theorem C10_addNarrativeEntry_sets_isTyping (s : Store) (t : EntryType) (content : String) :
    (addNarrativeEntry s t content).isTyping =
      (t == EntryType.narrator || t == EntryType.ascii) ∧
    ((t = EntryType.player ∨ t = EntryType.system) →
      (addNarrativeEntry s t content).isTyping = false) := by
  refine ⟨rfl, ?_⟩
  rintro (rfl | rfl) <;> rfl

/-- Witness for C10: a `system` entry appended while `isTyping` is true
forces the flag to `false`. -/
theorem C10_addNarrativeEntry_sets_isTyping_witness :
    (addNarrativeEntry { INITIAL_STATE with isTyping := true }
        EntryType.system "► ACQUIRED: TORCH").isTyping = false :=
  (C10_addNarrativeEntry_sets_isTyping { INITIAL_STATE with isTyping := true }
      EntryType.system "► ACQUIRED: TORCH").2 (Or.inr rfl)

/-- C9: when the store is neither processing nor game-over and the command
trims and lower-cases to `help` or `instructions`, the synchronous phase of
`submitCommand` answers locally (it never dispatches a generator
round-trip): the log gains the echoed player entry followed by exactly one
`system` entry carrying the active theme's static help text, and health,
inventory, game-over flag, history and the processing flag are all
unchanged (the resulting store equals the input store except for those two
appended entries and the recomputed `isTyping`). -/
theorem C9_help_is_local_and_pure (s : Store) (command : String)
    (h1 : s.isProcessing = false) (h2 : s.isGameOver = false)
    (h3 : jsToLowerCase (jsTrim command) = "help" ∨ jsToLowerCase (jsTrim command) = "instructions") :
    submitCommandLocal command s =
      SubmitLocal.handledLocally
        { s with
          narrativeEntries := s.narrativeEntries ++
            [⟨EntryType.player, command⟩,
              ⟨EntryType.system, (THEME_CONFIG s.currentTheme).helpMessage⟩]
          isTyping := false } := by
  rcases h3 with h3 | h3 <;>
    simp [submitCommandLocal, h1, h2, h3, addNarrativeEntry]

/-- Witness for C9: submitting `help` on the fresh store. -/
theorem C9_help_is_local_and_pure_witness :
    INITIAL_STATE.isProcessing = false ∧ INITIAL_STATE.isGameOver = false ∧
    jsToLowerCase (jsTrim "help") = "help" ∧
    submitCommandLocal "help" INITIAL_STATE =
      SubmitLocal.handledLocally
        { INITIAL_STATE with
          narrativeEntries := INITIAL_STATE.narrativeEntries ++
            [⟨EntryType.player, "help"⟩,
              ⟨EntryType.system, (THEME_CONFIG INITIAL_STATE.currentTheme).helpMessage⟩]
          isTyping := false } :=
  ⟨rfl, rfl, by decide,
    C9_help_is_local_and_pure INITIAL_STATE "help" rfl rfl (Or.inl (by decide))⟩

/-- C8: every failed round-trip resolution — a `success = false` response,
a response without data, or a thrown exception, through either
`submitCommand` or a session-valid `initializeGame` — preserves health,
inventory, the game-over flag and history, and its only log mutation is
one appended `system` entry carrying the classified in-fiction message. -/
theorem C8_failure_preserves_state_appends_one_entry (s : Store) (command : String)
    (out : GenerateNarrativeOutput) (sess : Nat)
    (hfail : out.success = false ∨ out.data = Option.none) :
    (let s1 := submitCommandResolve command (GenResult.resolved out) s;
      s1.health = s.health ∧ s1.inventory = s.inventory ∧
      s1.isGameOver = s.isGameOver ∧ s1.history = s.history ∧
      s1.narrativeEntries = s.narrativeEntries ++
        [⟨EntryType.system, submitErrorMessage out⟩]) ∧
    (let s2 := submitCommandResolve command GenResult.thrown s;
      s2.health = s.health ∧ s2.inventory = s.inventory ∧
      s2.isGameOver = s.isGameOver ∧ s2.history = s.history ∧
      s2.narrativeEntries = s.narrativeEntries ++
        [⟨EntryType.system, "CONNECTION TO THE VOID LOST. Try again."⟩]) ∧
    (let s3 := initializeGameResolve sess sess (GenResult.resolved out) s;
      s3.health = s.health ∧ s3.inventory = s.inventory ∧
      s3.isGameOver = s.isGameOver ∧ s3.history = s.history ∧
      s3.narrativeEntries = s.narrativeEntries ++
        [⟨EntryType.system, initErrorMessage out⟩]) ∧
    (let s4 := initializeGameResolve sess sess GenResult.thrown s;
      s4.health = s.health ∧ s4.inventory = s.inventory ∧
      s4.isGameOver = s.isGameOver ∧ s4.history = s.history ∧
      s4.narrativeEntries = s.narrativeEntries ++
        [⟨EntryType.system,
          "CONNECTION TO THE VOID LOST. Please refresh to try again."⟩]) := by
  obtain ⟨succ, data, err, et⟩ := out
  cases succ <;> cases data <;>
    simp_all [submitCommandResolve, initializeGameResolve, addNarrativeEntry]

/-- Witness for C8: a classified `network` failure on the fresh store. -/
theorem C8_failure_preserves_state_appends_one_entry_witness :
    ((false : Bool) = false ∨
      (Option.none : Option StructuredResponse) = Option.none) ∧
    (let out : GenerateNarrativeOutput :=
      ⟨false, Option.none, Option.some "boom", Option.some ErrorType.network⟩;
    (let s1 := submitCommandResolve "go" (GenResult.resolved out) INITIAL_STATE;
      s1.health = INITIAL_STATE.health ∧ s1.inventory = INITIAL_STATE.inventory ∧
      s1.isGameOver = INITIAL_STATE.isGameOver ∧ s1.history = INITIAL_STATE.history ∧
      s1.narrativeEntries = INITIAL_STATE.narrativeEntries ++
        [⟨EntryType.system, submitErrorMessage out⟩]) ∧
    (let s2 := submitCommandResolve "go" GenResult.thrown INITIAL_STATE;
      s2.health = INITIAL_STATE.health ∧ s2.inventory = INITIAL_STATE.inventory ∧
      s2.isGameOver = INITIAL_STATE.isGameOver ∧ s2.history = INITIAL_STATE.history ∧
      s2.narrativeEntries = INITIAL_STATE.narrativeEntries ++
        [⟨EntryType.system, "CONNECTION TO THE VOID LOST. Try again."⟩]) ∧
    (let s3 := initializeGameResolve 0 0 (GenResult.resolved out) INITIAL_STATE;
      s3.health = INITIAL_STATE.health ∧ s3.inventory = INITIAL_STATE.inventory ∧
      s3.isGameOver = INITIAL_STATE.isGameOver ∧ s3.history = INITIAL_STATE.history ∧
      s3.narrativeEntries = INITIAL_STATE.narrativeEntries ++
        [⟨EntryType.system, initErrorMessage out⟩]) ∧
    (let s4 := initializeGameResolve 0 0 GenResult.thrown INITIAL_STATE;
      s4.health = INITIAL_STATE.health ∧ s4.inventory = INITIAL_STATE.inventory ∧
      s4.isGameOver = INITIAL_STATE.isGameOver ∧ s4.history = INITIAL_STATE.history ∧
      s4.narrativeEntries = INITIAL_STATE.narrativeEntries ++
        [⟨EntryType.system,
          "CONNECTION TO THE VOID LOST. Please refresh to try again."⟩])) :=
  ⟨Or.inl rfl,
    C8_failure_preserves_state_appends_one_entry INITIAL_STATE "go"
      ⟨false, Option.none, Option.some "boom", Option.some ErrorType.network⟩ 0
      (Or.inl rfl)⟩

/-- C1 counterexample: the claim quantifies over `submitCommand`
round-trips as well, but `submitCommandResolve` — the embedding of
everything `submitCommand` runs after its await — takes no session
parameters at all, because the source compares no token on this path.
Hence at any token values (in particular captured `s`, current `s + 1`,
i.e. after a mid-flight `resetGame`/`setTheme`) a resolving
`submitCommand` round-trip still mutates `PlayerState`, history and the
narrative log, and clears the `isProcessing` flag that the fresh session
set — contradicting the claim at this concrete input. -/
theorem C1_counterexample_submit_resolution_not_discarded :
    let s0 : Store := { INITIAL_STATE with isProcessing := true };
    let out0 : GenerateNarrativeOutput :=
      ⟨true,
        Option.some
          ⟨"The darkness deepens.", VisualCue.none,
            ⟨Option.some (-10), Option.none, Option.none⟩, SoundCue.none⟩,
        Option.none, Option.none⟩;
    let s1 := submitCommandResolve "go north" (GenResult.resolved out0) s0;
    s1.health = 90 ∧ s0.health = 100 ∧
    s1.history ≠ s0.history ∧
    s1.narrativeEntries ≠ s0.narrativeEntries ∧
    s1.isProcessing = false ∧ s0.isProcessing = true := by
  decide

/-- C1 amended: a stale `initializeGame` resolution — one whose captured
session token differs from the current token at resumption — is discarded
entirely: it mutates no store field (no `PlayerState` change, no history
or log append) and does not clear the `isProcessing` flag owned by the
newer token.  (`submitCommand` resolutions, by contrast, perform no token
comparison; see the counterexample.) -/
theorem C1_amended_stale_init_resolution_discarded (captured current : Nat)
    (result : GenResult) (s : Store) (h : captured ≠ current) :
    initializeGameResolve captured current result s = s := by
  cases result <;> simp [initializeGameResolve, h]

/-- Witness for C1 amended: token captured at 0, current token 1. -/
theorem C1_amended_stale_init_resolution_discarded_witness :
    (0 : Nat) ≠ 1 ∧
    initializeGameResolve 0 1 GenResult.thrown
        { INITIAL_STATE with isProcessing := true } =
      { INITIAL_STATE with isProcessing := true } :=
  ⟨by decide,
    C1_amended_stale_init_resolution_discarded 0 1 GenResult.thrown
      { INITIAL_STATE with isProcessing := true } (by decide)⟩

/-- C3 counterexample: on a successful round-trip whose delta adds
`TORCH`, the resulting log places the `► ACQUIRED` system notification
STRICTLY BEFORE the narrator entry of the same round-trip (the
notifications are appended by `applyStateUpdate`, which runs before the
narrator entry is appended) — contradicting the claimed
strictly-after ordering at this concrete input. -/
theorem C3_counterexample_notification_precedes_narrator :
    (submitCommandResolve "take torch"
        (GenResult.resolved
          ⟨true,
            Option.some
              ⟨"You take the torch.", VisualCue.none,
                ⟨Option.none, Option.some "TORCH", Option.none⟩, SoundCue.none⟩,
            Option.none, Option.none⟩)
        INITIAL_STATE).narrativeEntries =
      [⟨EntryType.system, "► ACQUIRED: TORCH"⟩,
        ⟨EntryType.narrator, "You take the torch."⟩] := by
  decide

/-- C3 amended: the system notification entries produced by a successful
round-trip appear immediately after all previously committed entries and
STRICTLY BEFORE the narrator entry produced by the same round-trip
(acquired notification first, then used, then the narrator entry, then
the optional art entry); being committed at resolution time they in
particular precede every entry of a subsequent round-trip. -/
theorem C3_amended_notifications_precede_narrator (s : Store) (command : String)
    (d : StructuredResponse) (err : Option String) (et : Option ErrorType) :
    (submitCommandResolve command
        (GenResult.resolved ⟨true, Option.some d, err, et⟩) s).narrativeEntries =
      s.narrativeEntries ++
        (if optTruthy d.game_state_update.inventory_add then
          [⟨EntryType.system,
            "► ACQUIRED: " ++ jsToUpperCase (optStr d.game_state_update.inventory_add)⟩]
        else []) ++
        (if optTruthy d.game_state_update.inventory_remove then
          [⟨EntryType.system,
            "► USED: " ++ jsToUpperCase (optStr d.game_state_update.inventory_remove)⟩]
        else []) ++
        [⟨EntryType.narrator, d.narrative⟩] ++
        (if d.visual_cue != VisualCue.none && getASCIIArt d.visual_cue != "" then
          [⟨EntryType.ascii, getASCIIArt d.visual_cue⟩]
        else []) := by
  simp only [submitCommandResolve, applySuccess]
  split_ifs <;>
    simp_all [applyStateUpdate_narrativeEntries, addNarrativeEntry]

theorem twTick_inv (t : List Char) (s : TWState)
    (h1 : s.completeCount = if s.complete then 1 else 0)
    (h2 : s.complete = true → s.running = false)
    (h3 : s.complete = true →
      s.emitted.getLast? = Option.some t ∧ t.take s.currentIndex = t) :
    ((twTick t s).completeCount = if (twTick t s).complete then 1 else 0) ∧
    ((twTick t s).complete = true → (twTick t s).running = false) ∧
    ((twTick t s).complete = true →
      (twTick t s).emitted.getLast? = Option.some t ∧
      t.take (twTick t s).currentIndex = t) := by
  by_cases hg : (!s.running || s.paused) = true
  · have hts : twTick t s = s := by simp [twTick, hg]
    rw [hts]; exact ⟨h1, h2, h3⟩
  · have hcomp : s.complete = false := by
      cases hc : s.complete
      · rfl
      · rw [h2 hc] at hg; simp at hg
    by_cases hle : s.currentIndex ≤ t.length
    · by_cases hle2 : s.currentIndex + 1 ≤ t.length
      · have hts : twTick t s =
            { s with
              emitted := s.emitted ++ [t.take s.currentIndex]
              currentIndex := s.currentIndex + 1
              timerPending := true } := by
          simp [twTick, hg, hle, hle2]
        rw [hts]
        exact ⟨h1, by simp [hcomp], by simp [hcomp]⟩
      · have hts : twTick t s =
            { s with
              emitted := s.emitted ++ [t.take s.currentIndex]
              currentIndex := s.currentIndex + 1
              complete := true
              running := false
              completeCount := s.completeCount + 1 } := by
          simp [twTick, hg, hle, hle2]
        rw [hts]
        have hidx : s.currentIndex = t.length := by omega
        refine ⟨by simp [h1, hcomp], fun _ => rfl, fun _ => ⟨?_, ?_⟩⟩
        · rw [List.getLast?_concat, hidx, List.take_length]
        · show t.take (s.currentIndex + 1) = t
          exact List.take_of_length_le (by omega)
    · have hts : twTick t s = s := by simp [twTick, hg, hle]
      rw [hts]; exact ⟨h1, h2, h3⟩

theorem twStep_stopfree_inv (t : List Char) (s : TWState) (e : TWEvent)
    (he : e ≠ TWEvent.stop)
    (h1 : s.completeCount = if s.complete then 1 else 0)
    (h2 : s.complete = true → s.running = false)
    (h3 : s.complete = true →
      s.emitted.getLast? = Option.some t ∧ t.take s.currentIndex = t) :
    ((twStep t s e).completeCount = if (twStep t s e).complete then 1 else 0) ∧
    ((twStep t s e).complete = true → (twStep t s e).running = false) ∧
    ((twStep t s e).complete = true →
      (twStep t s e).emitted.getLast? = Option.some t ∧
      t.take (twStep t s e).currentIndex = t) := by
  cases e with
  | start =>
    by_cases hg : (s.running || s.complete) = true
    · have hts : twStep t s TWEvent.start = s := by simp [twStep, hg]
      rw [hts]; exact ⟨h1, h2, h3⟩
    · have hcomp : s.complete = false := by
        cases hc : s.complete
        · rfl
        · rw [hc] at hg; simp at hg
      have hts : twStep t s TWEvent.start =
          twTick t { s with running := true, paused := false } := by
        simp [twStep, hg]
      rw [hts]
      exact twTick_inv t { s with running := true, paused := false } h1
        (by simp [hcomp]) (by simp [hcomp])
  | skip =>
    by_cases hc : s.complete = true
    · have hts : twStep t s TWEvent.skip = s := by simp [twStep, hc]
      rw [hts]; exact ⟨h1, h2, h3⟩
    · have hcomp : s.complete = false := by
        cases hcc : s.complete
        · rfl
        · exact absurd hcc hc
      have hts : twStep t s TWEvent.skip =
          { s with
            timerPending := false
            currentIndex := t.length
            emitted := s.emitted ++ [t]
            complete := true
            running := false
            completeCount := s.completeCount + 1 } := by
        simp [twStep, hc]
      rw [hts]
      exact ⟨by simp [h1, hcomp], fun _ => rfl,
        fun _ => ⟨List.getLast?_concat _, List.take_length t⟩⟩
  | pause =>
    by_cases hg : (!s.running || s.complete) = true
    · have hts : twStep t s TWEvent.pause = s := by simp [twStep, hg]
      rw [hts]; exact ⟨h1, h2, h3⟩
    · have hcomp : s.complete = false := by
        cases hc : s.complete
        · rfl
        · rw [hc] at hg; simp at hg
      have hts : twStep t s TWEvent.pause =
          { s with paused := true, timerPending := false } := by
        simp [twStep, hg]
      rw [hts]
      exact ⟨h1, by simp [hcomp], by simp [hcomp]⟩
  | resume =>
    by_cases hg : (!s.paused || s.complete) = true
    · have hts : twStep t s TWEvent.resume = s := by simp [twStep, hg]
      rw [hts]; exact ⟨h1, h2, h3⟩
    · have hcomp : s.complete = false := by
        cases hc : s.complete
        · rfl
        · rw [hc] at hg; simp at hg
      have hts : twStep t s TWEvent.resume =
          twTick t { s with paused := false } := by
        simp [twStep, hg]
      rw [hts]
      exact twTick_inv t { s with paused := false } h1
        (by simp [hcomp]) (by simp [hcomp])
  | stop => exact absurd rfl he
  | timer =>
    by_cases hp : s.timerPending = true
    · have hts : twStep t s TWEvent.timer =
          twTick t { s with timerPending := false } := by
        simp [twStep, hp]
      rw [hts]
      exact twTick_inv t { s with timerPending := false } h1 h2 h3
    · have hts : twStep t s TWEvent.timer = s := by simp [twStep, hp]
      rw [hts]; exact ⟨h1, h2, h3⟩

theorem twRun_stopfree_inv (t : List Char) (es : List TWEvent) (s : TWState)
    (hes : TWEvent.stop ∉ es)
    (h1 : s.completeCount = if s.complete then 1 else 0)
    (h2 : s.complete = true → s.running = false)
    (h3 : s.complete = true →
      s.emitted.getLast? = Option.some t ∧ t.take s.currentIndex = t) :
    ((es.foldl (twStep t) s).completeCount =
      if (es.foldl (twStep t) s).complete then 1 else 0) ∧
    ((es.foldl (twStep t) s).complete = true →
      (es.foldl (twStep t) s).running = false) ∧
    ((es.foldl (twStep t) s).complete = true →
      (es.foldl (twStep t) s).emitted.getLast? = Option.some t ∧
      t.take (es.foldl (twStep t) s).currentIndex = t) := by
  induction es generalizing s with
  | nil => exact ⟨h1, h2, h3⟩
  | cons e rest ih =>
    have hne : e ≠ TWEvent.stop := fun hh => hes (hh ▸ List.mem_cons_self e rest)
    have hrest : TWEvent.stop ∉ rest := fun hh => hes (List.mem_cons_of_mem e hh)
    have hstep := twStep_stopfree_inv t s e hne h1 h2 h3
    simp only [List.foldl_cons]
    exact ih (twStep t s e) hrest hstep.1 hstep.2.1 hstep.2.2

/-- C4 counterexample: `stop()` resets the closure's `complete` flag (and
the revealed index) without any once-only latch, so the event sequence
start, skip, stop, skip fires the completion callback TWICE on a single
controller instance — the second `skip()` after the intervening `stop()`
re-fires completion, contradicting the claim at this concrete input. -/
theorem C4_counterexample_stop_allows_double_completion :
    (twRun ['a']
        [TWEvent.start, TWEvent.skip, TWEvent.stop, TWEvent.skip]).completeCount = 2 := by
  decide

/-- C4 amended: restricted to call/tick sequences that never invoke
`stop()` (which deliberately resets the instance), the completion callback
fires at most once per controller instance; if the controller reaches the
`complete` state (naturally or via `skip()`) the callback has fired
exactly once and the last emitted text is the full text; calling `skip()`
at any such point yields completion with the callback fired exactly once,
the full text both emitted and revealed, and a further `skip()` is a
no-op that changes nothing (in particular it does not re-fire the
callback). -/
theorem C4_amended_onComplete_once_without_stop (t : List Char) (es : List TWEvent)
    (h : TWEvent.stop ∉ es) :
    (twRun t es).completeCount ≤ 1 ∧
    ((twRun t es).complete = true →
      (twRun t es).completeCount = 1 ∧
      (twRun t es).emitted.getLast? = Option.some t) ∧
    (twRun t (es ++ [TWEvent.skip])).completeCount = 1 ∧
    (twRun t (es ++ [TWEvent.skip])).emitted.getLast? = Option.some t ∧
    twCurrentText t (twRun t (es ++ [TWEvent.skip])) = t ∧
    twRun t (es ++ [TWEvent.skip, TWEvent.skip]) = twRun t (es ++ [TWEvent.skip]) := by
  obtain ⟨h1, h2, h3⟩ :=
    twRun_stopfree_inv t es twInit h rfl (by simp [twInit]) (by simp [twInit])
  replace h1 : (twRun t es).completeCount =
      if (twRun t es).complete = true then 1 else 0 := h1
  replace h2 : (twRun t es).complete = true → (twRun t es).running = false := h2
  replace h3 : (twRun t es).complete = true →
      (twRun t es).emitted.getLast? = Option.some t ∧
      t.take (twRun t es).currentIndex = t := h3
  have hskip :=
    twStep_stopfree_inv t (twRun t es) TWEvent.skip (by simp) h1 h2 h3
  have happ : twRun t (es ++ [TWEvent.skip]) = twStep t (twRun t es) TWEvent.skip := by
    simp [twRun, List.foldl_append]
  have hc' : (twStep t (twRun t es) TWEvent.skip).complete = true := by
    simp only [twStep]
    split_ifs with hc
    · exact hc
    · rfl
  have happ2 : twRun t (es ++ [TWEvent.skip, TWEvent.skip]) =
      twStep t (twStep t (twRun t es) TWEvent.skip) TWEvent.skip := by
    simp [twRun, List.foldl_append]
  refine ⟨?_, ?_, ?_, ?_, ?_, ?_⟩
  · rw [h1]; split <;> omega
  · intro hcc
    exact ⟨by rw [h1, hcc]; rfl, (h3 hcc).1⟩
  · rw [happ, hskip.1, hc']; rfl
  · rw [happ]; exact (hskip.2.2 hc').1
  · rw [happ]; exact (hskip.2.2 hc').2
  · rw [happ2, happ]
    set X := twStep t (twRun t es) TWEvent.skip with hX
    simp [twStep, hc']

/-- Witness for C4 amended: the two-character text `ab` after a `start`
and one timer tick. -/
theorem C4_amended_onComplete_once_without_stop_witness :
    TWEvent.stop ∉ [TWEvent.start, TWEvent.timer] ∧
    ((twRun ['a', 'b'] [TWEvent.start, TWEvent.timer]).completeCount ≤ 1 ∧
    ((twRun ['a', 'b'] [TWEvent.start, TWEvent.timer]).complete = true →
      (twRun ['a', 'b'] [TWEvent.start, TWEvent.timer]).completeCount = 1 ∧
      (twRun ['a', 'b'] [TWEvent.start, TWEvent.timer]).emitted.getLast? =
        Option.some ['a', 'b']) ∧
    (twRun ['a', 'b']
        ([TWEvent.start, TWEvent.timer] ++ [TWEvent.skip])).completeCount = 1 ∧
    (twRun ['a', 'b']
        ([TWEvent.start, TWEvent.timer] ++ [TWEvent.skip])).emitted.getLast? =
      Option.some ['a', 'b'] ∧
    twCurrentText ['a', 'b']
        (twRun ['a', 'b'] ([TWEvent.start, TWEvent.timer] ++ [TWEvent.skip])) =
      ['a', 'b'] ∧
    twRun ['a', 'b']
        ([TWEvent.start, TWEvent.timer] ++ [TWEvent.skip, TWEvent.skip]) =
      twRun ['a', 'b'] ([TWEvent.start, TWEvent.timer] ++ [TWEvent.skip])) :=
  ⟨by decide,
    C4_amended_onComplete_once_without_stop ['a', 'b']
      [TWEvent.start, TWEvent.timer] (by decide)⟩

theorem parseString_isSome (v : Json) : (parseString v).isSome = isStrB v := by
  cases v <;> rfl

theorem parseOptionalString_isSome (v : Json) :
    (parseOptionalString v).isSome = isOptStrB v := by
  cases v <;> rfl

theorem parseOptionalNumber_isSome (v : Json) :
    (parseOptionalNumber v).isSome = isOptNumB v := by
  cases v with
  | num n =>
    by_cases hn : (n == JsNum.nan) = true <;>
      simp [parseOptionalNumber, isOptNumB, hn]
  | str s => rfl
  | boolean b => rfl
  | null => rfl
  | undef => rfl
  | obj fields => rfl
  | arr elems => rfl

theorem parseEnum_isSome (values : List String) (v : Json) :
    (parseEnum values v).isSome = isEnumB values v := by
  cases v with
  | str s =>
    by_cases hs : values.contains s = true
    · simp only [parseEnum, isEnumB]
      rw [if_pos hs, hs]
      rfl
    · simp only [parseEnum, isEnumB]
      rw [if_neg hs]
      simp only [Bool.not_eq_true] at hs
      rw [hs]
      rfl
  | num n => rfl
  | boolean b => rfl
  | null => rfl
  | undef => rfl
  | obj fields => rfl
  | arr elems => rfl

theorem parseGameStateUpdate_isSome (v : Json) :
    (parseGameStateUpdate v).isSome = specValidGameStateUpdate v := by
  cases v with
  | obj fields =>
    simp only [parseGameStateUpdate, specValidGameStateUpdate,
      ← parseOptionalNumber_isSome, ← parseOptionalString_isSome]
    cases parseOptionalNumber (getField fields "health_change") <;>
    cases parseOptionalString (getField fields "inventory_add") <;>
    cases parseOptionalString (getField fields "inventory_remove") <;>
      simp
  | str s => rfl
  | num n => rfl
  | boolean b => rfl
  | null => rfl
  | undef => rfl
  | arr elems => rfl

theorem parseStructuredResponse_isSome (v : Json) :
    (parseStructuredResponse v).isSome = specValidStructuredResponse v := by
  cases v with
  | obj fields =>
    simp only [parseStructuredResponse, specValidStructuredResponse,
      ← parseString_isSome, ← parseEnum_isSome, ← parseGameStateUpdate_isSome]
    cases parseString (getField fields "narrative") <;>
    cases parseEnum visualCueValues (getField fields "visual_cue") <;>
    cases parseGameStateUpdate (getField fields "game_state_update") <;>
    cases parseEnum soundCueValues (getField fields "sound_cue") <;>
      simp
  | str s => rfl
  | num n => rfl
  | boolean b => rfl
  | null => rfl
  | undef => rfl
  | arr elems => rfl

theorem parseString_eq_some {v : Json} {s : String}
    (h : parseString v = Option.some s) : v = Json.str s := by
  cases v <;> simp_all [parseString]

theorem parseEnum_eq_some {values : List String} {v : Json} {s : String}
    (h : parseEnum values v = Option.some s) :
    v = Json.str s ∧ values.contains s = true := by
  cases v with
  | str s1 =>
    by_cases hc : values.contains s1 = true
    · simp only [parseEnum] at h
      rw [if_pos hc] at h
      injection h with h1
      subst h1
      exact ⟨rfl, hc⟩
    · simp only [parseEnum] at h
      rw [if_neg hc] at h
      exact Option.noConfusion h
  | num n => simp [parseEnum] at h
  | boolean b => simp [parseEnum] at h
  | null => simp [parseEnum] at h
  | undef => simp [parseEnum] at h
  | obj fields => simp [parseEnum] at h
  | arr elems => simp [parseEnum] at h

theorem parseOptionalString_eq_some_some {v : Json} {a : String}
    (h : parseOptionalString v = Option.some (Option.some a)) : v = Json.str a := by
  cases v <;> simp_all [parseOptionalString]

theorem parseOptionalString_eq_some_none {v : Json}
    (h : parseOptionalString v = Option.some Option.none) : v = Json.undef := by
  cases v <;> simp_all [parseOptionalString]

theorem parseOptionalNumber_eq_some_some {v : Json} {n : JsNum}
    (h : parseOptionalNumber v = Option.some (Option.some n)) :
    v = Json.num n ∧ n ≠ JsNum.nan := by
  cases v with
  | num m =>
    by_cases hc : (m == JsNum.nan) = true
    · simp only [parseOptionalNumber] at h
      rw [if_pos hc] at h
      exact Option.noConfusion h
    · simp only [parseOptionalNumber] at h
      rw [if_neg hc] at h
      injection h with h1
      injection h1 with h2
      subst h2
      exact ⟨rfl, by simpa using hc⟩
  | str s => simp [parseOptionalNumber] at h
  | boolean b => simp [parseOptionalNumber] at h
  | null => simp [parseOptionalNumber] at h
  | undef => simp [parseOptionalNumber] at h
  | obj fields => simp [parseOptionalNumber] at h
  | arr elems => simp [parseOptionalNumber] at h

theorem parseOptionalNumber_eq_some_none {v : Json}
    (h : parseOptionalNumber v = Option.some Option.none) : v = Json.undef := by
  cases v with
  | num m =>
    by_cases hc : (m == JsNum.nan) = true
    · simp only [parseOptionalNumber] at h
      rw [if_pos hc] at h
      exact Option.noConfusion h
    · simp only [parseOptionalNumber] at h
      rw [if_neg hc] at h
      injection h with h1
      exact Option.noConfusion h1
  | str s => simp [parseOptionalNumber] at h
  | boolean b => simp [parseOptionalNumber] at h
  | null => simp [parseOptionalNumber] at h
  | undef => rfl
  | obj fields => simp [parseOptionalNumber] at h
  | arr elems => simp [parseOptionalNumber] at h

theorem parseGameStateUpdate_eq_some {v : Json} {g : SchemaGameStateUpdate}
    (h : parseGameStateUpdate v = Option.some g) :
    ∃ gfields, v = Json.obj gfields ∧
      (match g.health_change with
        | Option.none => getField gfields "health_change" = Json.undef
        | Option.some n =>
          getField gfields "health_change" = Json.num n ∧ n ≠ JsNum.nan) ∧
      (match g.inventory_add with
        | Option.none => getField gfields "inventory_add" = Json.undef
        | Option.some a => getField gfields "inventory_add" = Json.str a) ∧
      (match g.inventory_remove with
        | Option.none => getField gfields "inventory_remove" = Json.undef
        | Option.some a => getField gfields "inventory_remove" = Json.str a) := by
  cases v with
  | obj fields =>
    simp only [parseGameStateUpdate] at h
    cases hn : parseOptionalNumber (getField fields "health_change") with
    | none => rw [hn] at h; simp at h
    | some hc =>
      rw [hn] at h
      cases ha : parseOptionalString (getField fields "inventory_add") with
      | none => rw [ha] at h; simp at h
      | some ia =>
        rw [ha] at h
        cases hr : parseOptionalString (getField fields "inventory_remove") with
        | none => rw [hr] at h; simp at h
        | some ir =>
          rw [hr] at h
          have h2 : Option.some (⟨hc, ia, ir⟩ : SchemaGameStateUpdate) =
              Option.some g := h
          injection h2 with h3
          subst h3
          refine ⟨fields, rfl, ?_, ?_, ?_⟩
          · cases hc with
            | none => exact parseOptionalNumber_eq_some_none hn
            | some n => exact parseOptionalNumber_eq_some_some hn
          · cases ia with
            | none => exact parseOptionalString_eq_some_none ha
            | some a => exact parseOptionalString_eq_some_some ha
          · cases ir with
            | none => exact parseOptionalString_eq_some_none hr
            | some a => exact parseOptionalString_eq_some_some hr
  | str s => simp [parseGameStateUpdate] at h
  | num n => simp [parseGameStateUpdate] at h
  | boolean b => simp [parseGameStateUpdate] at h
  | null => simp [parseGameStateUpdate] at h
  | undef => simp [parseGameStateUpdate] at h
  | arr elems => simp [parseGameStateUpdate] at h

/-- C2 counterexample: the claim asserts the validator additionally
rejects an empty `narrative` string, yet `z.string()` accepts any string:
this otherwise-valid object with `narrative = an empty string` parses
SUCCESSFULLY (and the parallel claims about rejecting non-integer
`health_change` and empty item strings fail likewise; see the witness of
the amended theorem, which accepts an infinite `health_change` and an
empty `inventory_add`). -/
theorem C2_counterexample_empty_narrative_accepted :
    parseStructuredResponse
        (Json.obj
          [("narrative", Json.str ""), ("visual_cue", Json.str "none"),
            ("game_state_update", Json.obj []), ("sound_cue", Json.str "none")]) =
      Option.some ⟨"", "none", ⟨Option.none, Option.none, Option.none⟩, "none"⟩ := by
  rfl

/-- C2 amended: the Structured Response Validator reports failure exactly
when the input is not an object, a required field is missing or mistyped,
`visual_cue`/`sound_cue` lies outside its closed enumeration, or a present
optional field is mistyped (for `health_change`: not a number — NaN
included); it does NOT additionally reject an empty `narrative`, a
non-integer or infinite `health_change`, or empty
`inventory_add`/`inventory_remove` strings.  On success it returns
field-for-field equal data. -/
theorem C2_amended_validator_characterisation (j : Json) :
    ((parseStructuredResponse j).isSome = specValidStructuredResponse j) ∧
    (∀ r, parseStructuredResponse j = Option.some r →
      ∃ fields, j = Json.obj fields ∧
        getField fields "narrative" = Json.str r.narrative ∧
        getField fields "visual_cue" = Json.str r.visual_cue ∧
        visualCueValues.contains r.visual_cue = true ∧
        getField fields "sound_cue" = Json.str r.sound_cue ∧
        soundCueValues.contains r.sound_cue = true ∧
        (∃ gfields, getField fields "game_state_update" = Json.obj gfields ∧
          (match r.game_state_update.health_change with
            | Option.none => getField gfields "health_change" = Json.undef
            | Option.some n =>
              getField gfields "health_change" = Json.num n ∧ n ≠ JsNum.nan) ∧
          (match r.game_state_update.inventory_add with
            | Option.none => getField gfields "inventory_add" = Json.undef
            | Option.some a => getField gfields "inventory_add" = Json.str a) ∧
          (match r.game_state_update.inventory_remove with
            | Option.none => getField gfields "inventory_remove" = Json.undef
            | Option.some a =>
              getField gfields "inventory_remove" = Json.str a))) := by
  refine ⟨parseStructuredResponse_isSome j, ?_⟩
  intro r h
  cases j with
  | obj fields =>
    simp only [parseStructuredResponse] at h
    cases hn : parseString (getField fields "narrative") with
    | none => rw [hn] at h; simp at h
    | some n =>
      rw [hn] at h
      cases hv : parseEnum visualCueValues (getField fields "visual_cue") with
      | none => rw [hv] at h; simp at h
      | some vc =>
        rw [hv] at h
        cases hg : parseGameStateUpdate (getField fields "game_state_update") with
        | none => rw [hg] at h; simp at h
        | some gsu =>
          rw [hg] at h
          cases hs : parseEnum soundCueValues (getField fields "sound_cue") with
          | none => rw [hs] at h; simp at h
          | some sc =>
            rw [hs] at h
            have h2 : Option.some
                (⟨n, vc, gsu, sc⟩ : SchemaStructuredResponse) =
                Option.some r := h
            injection h2 with h3
            subst h3
            obtain ⟨gfields, hgf, hhc, hia, hir⟩ := parseGameStateUpdate_eq_some hg
            exact ⟨fields, rfl, parseString_eq_some hn,
              (parseEnum_eq_some hv).1, (parseEnum_eq_some hv).2,
              (parseEnum_eq_some hs).1, (parseEnum_eq_some hs).2,
              gfields, hgf, hhc, hia, hir⟩
  | str s => simp [parseStructuredResponse] at h
  | num n => simp [parseStructuredResponse] at h
  | boolean b => simp [parseStructuredResponse] at h
  | null => simp [parseStructuredResponse] at h
  | undef => simp [parseStructuredResponse] at h
  | arr elems => simp [parseStructuredResponse] at h

/-- Witness for C2 amended, at an object carrying an empty narrative, an
INFINITE `health_change` and an EMPTY `inventory_add` — all accepted. -/
theorem C2_amended_validator_characterisation_witness :
    parseStructuredResponse
        (Json.obj
          [("narrative", Json.str ""), ("visual_cue", Json.str "skeleton"),
            ("game_state_update",
              Json.obj [("health_change", Json.num JsNum.posInf),
                ("inventory_add", Json.str "")]),
            ("sound_cue", Json.str "wind")]) =
      Option.some
        ⟨"", "skeleton",
          ⟨Option.some JsNum.posInf, Option.some "", Option.none⟩, "wind"⟩ ∧
    ((parseStructuredResponse
        (Json.obj
          [("narrative", Json.str ""), ("visual_cue", Json.str "skeleton"),
            ("game_state_update",
              Json.obj [("health_change", Json.num JsNum.posInf),
                ("inventory_add", Json.str "")]),
            ("sound_cue", Json.str "wind")])).isSome =
      specValidStructuredResponse
        (Json.obj
          [("narrative", Json.str ""), ("visual_cue", Json.str "skeleton"),
            ("game_state_update",
              Json.obj [("health_change", Json.num JsNum.posInf),
                ("inventory_add", Json.str "")]),
            ("sound_cue", Json.str "wind")])) ∧
    (∃ fields,
      (Json.obj
          [("narrative", Json.str ""), ("visual_cue", Json.str "skeleton"),
            ("game_state_update",
              Json.obj [("health_change", Json.num JsNum.posInf),
                ("inventory_add", Json.str "")]),
            ("sound_cue", Json.str "wind")]) = Json.obj fields ∧
        getField fields "narrative" = Json.str "" ∧
        getField fields "visual_cue" = Json.str "skeleton" ∧
        visualCueValues.contains "skeleton" = true ∧
        getField fields "sound_cue" = Json.str "wind" ∧
        soundCueValues.contains "wind" = true ∧
        (∃ gfields, getField fields "game_state_update" = Json.obj gfields ∧
          (getField gfields "health_change" = Json.num JsNum.posInf ∧
            JsNum.posInf ≠ JsNum.nan) ∧
          getField gfields "inventory_add" = Json.str "" ∧
          getField gfields "inventory_remove" = Json.undef)) :=
  ⟨rfl,
    (C2_amended_validator_characterisation _).1,
    (C2_amended_validator_characterisation _).2
      ⟨"", "skeleton", ⟨Option.some JsNum.posInf, Option.some "", Option.none⟩,
        "wind"⟩ rfl⟩
